import Mathlib

/-!
Verification of the measurement engine of the RunSync foot-scan analyzer.

The JavaScript source (class `MeasurementEngine`, plus the bilateral
comparison in `scene-manager.js` / `report-generator.js`) is shallowly
embedded below.  JS `number` values are modelled as `ℚ`; the non-finite
values (NaN, ±∞) that can arise from a division by zero are modelled by
`Option ℚ` where `none` stands for a non-finite result.  Vertex lists are
`List Vertex`; a missing position attribute is `Option.none` at the
geometry level.  THREE.js `Box3` built from points is modelled by
`Option Box3` (`none` is the empty box `min = +∞, max = -∞` that
`setFromPoints` yields on an empty point list; its `getSize` is `(0,0,0)`,
as in THREE r128).
-/

/-- A 3D point, as produced by the upstream loader (`THREE.Vector3`). -/
structure Vertex where
  x : ℚ
  y : ℚ
  z : ℚ
deriving Repr, DecidableEq

/-- An axis-aligned bounding box with both corners present (a non-degenerate
`THREE.Box3`). -/
structure Box3 where
  bmin : Vertex
  bmax : Vertex
deriving Repr, DecidableEq

/-- `THREE.Box3.isEmpty`: true when some max coordinate is below its min. -/
def Box3.isEmpty (b : Box3) : Bool :=
  b.bmax.x < b.bmin.x || b.bmax.y < b.bmin.y || b.bmax.z < b.bmin.z

/-- `THREE.Box3.getSize` (r128): `(0,0,0)` for an empty box, else `max - min`. -/
def Box3.getSize (b : Box3) : Vertex :=
  if b.isEmpty then ⟨0, 0, 0⟩
  else ⟨b.bmax.x - b.bmin.x, b.bmax.y - b.bmin.y, b.bmax.z - b.bmin.z⟩

/-- One expansion step of `THREE.Box3.expandByPoint`. -/
def expandByPoint (b : Box3) (v : Vertex) : Box3 :=
  ⟨⟨min b.bmin.x v.x, min b.bmin.y v.y, min b.bmin.z v.z⟩,
   ⟨max b.bmax.x v.x, max b.bmax.y v.y, max b.bmax.z v.z⟩⟩

/-- `THREE.Box3.setFromPoints`: starts from the empty box (modelled `none`)
and expands by every point; an empty list leaves the box empty. -/
def setFromPoints : List Vertex → Option Box3
  | [] => none
  | v :: vs => some (vs.foldl expandByPoint ⟨v, v⟩)

/-- `getSize` lifted to the possibly-empty box: the empty box has size
`(0,0,0)` in THREE r128. -/
def sizeOfBox : Option Box3 → Vertex
  | none => ⟨0, 0, 0⟩
  | some b => b.getSize

/-- Embeds the source pattern `values.sort((a,b) => a-b)[0]`: the minimum of
a list of numbers (`0` on the empty list, which the source never reaches). -/
def qmin : List ℚ → ℚ
  | [] => 0
  | v :: vs => vs.foldl min v

/-- Embeds `values.sort((a,b) => a-b)[values.length - 1]`: the maximum of a
list of numbers (`0` on the empty list, unreachable in the source). -/
def qmax : List ℚ → ℚ
  | [] => 0
  | v :: vs => vs.foldl max v

/-- Result record of `detectUnit`. -/
structure UnitData where
  multiplier : ℚ
  unit : String
  confidence : String
deriving Repr, DecidableEq

/-- `MeasurementEngine.detectUnit` (src/unnamed/part_000, lines 233-268):
five ordered bands over the raw maximum bounding-box dimension. -/
def detectUnit (maxDim : ℚ) : UnitData :=
  if maxDim < 1/2 then
    ⟨1000, "mm", "높음 (미터 단위 감지)"⟩
  else if 1/2 ≤ maxDim ∧ maxDim < 5 then
    ⟨1000, "mm", "중간 (미터 단위 추정)"⟩
  else if 5 ≤ maxDim ∧ maxDim < 50 then
    ⟨10, "mm", "중간 (cm 단위 추정)"⟩
  else if 50 ≤ maxDim ∧ maxDim ≤ 500 then
    ⟨1, "mm", "높음 (mm 단위 감지)"⟩
  else
    ⟨1/10, "mm", "낮음 (비정상적 크기)"⟩

/-- `MeasurementEngine.validateMeasurements` (src/unnamed/part_000,
lines 208-228): inclusive range check of the three millimeter values. -/
def validateMeasurements (length width height : ℚ) : Bool :=
  let validLength := 50 ≤ length ∧ length ≤ 500
  let validWidth := 20 ≤ width ∧ width ≤ 200
  let validHeight := 10 ≤ height ∧ height ≤ 150
  validLength ∧ validWidth ∧ validHeight

/-- C1: for every finite non-negative `maxDimension`, `detectUnit` returns
unit label "mm" and exactly the multiplier/confidence of the spec table:
`< 0.5` gives 1000 with high confidence ("높음 (미터 단위 감지)");
`[0.5, 5)` gives 1000 with medium confidence; `[5, 50)` gives 10 with
medium confidence; `[50, 500]` gives 1 with high confidence; `> 500`
gives 0.1 with low confidence. -/
theorem detectUnit_spec_table (d : ℚ) (_hd : 0 ≤ d) :
    (detectUnit d).unit = "mm" ∧
    (d < 1/2 → detectUnit d = ⟨1000, "mm", "높음 (미터 단위 감지)"⟩) ∧
    (1/2 ≤ d → d < 5 → detectUnit d = ⟨1000, "mm", "중간 (미터 단위 추정)"⟩) ∧
    (5 ≤ d → d < 50 → detectUnit d = ⟨10, "mm", "중간 (cm 단위 추정)"⟩) ∧
    (50 ≤ d → d ≤ 500 → detectUnit d = ⟨1, "mm", "높음 (mm 단위 감지)"⟩) ∧
    (500 < d → detectUnit d = ⟨1/10, "mm", "낮음 (비정상적 크기)"⟩) := by
  unfold detectUnit
  refine ⟨?_, ?_, ?_, ?_, ?_, ?_⟩
  · split_ifs <;> rfl
  · intro h; rw [if_pos h]
  · intro h1 h2
    rw [if_neg (by linarith), if_pos ⟨h1, h2⟩]
  · intro h1 h2
    rw [if_neg (by linarith), if_neg (by rintro ⟨-, h⟩; linarith),
      if_pos ⟨h1, h2⟩]
  · intro h1 h2
    rw [if_neg (by linarith), if_neg (by rintro ⟨-, h⟩; linarith),
      if_neg (by rintro ⟨-, h⟩; linarith), if_pos ⟨h1, h2⟩]
  · intro h
    rw [if_neg (by linarith), if_neg (by rintro ⟨-, h2⟩; linarith),
      if_neg (by rintro ⟨-, h2⟩; linarith), if_neg (by rintro ⟨-, h2⟩; linarith)]

/-- Witness for `detectUnit_spec_table` at the concrete input 0.3. -/
theorem detectUnit_spec_table_witness :
    (detectUnit (3/10)).unit = "mm" ∧
    detectUnit (3/10) = ⟨1000, "mm", "높음 (미터 단위 감지)"⟩ :=
  ⟨(detectUnit_spec_table (3/10) (by norm_num)).1,
   (detectUnit_spec_table (3/10) (by norm_num)).2.1 (by norm_num)⟩

/-- C5: `validateMeasurements` accepts exactly when length ∈ [50, 500],
width ∈ [20, 200] and height ∈ [10, 150], all bounds inclusive; any single
out-of-range dimension rejects the triplet, so (50,20,10) and (500,200,150)
pass while (49.9,20,10) and (500.1,200,150) fail. -/
theorem validateMeasurements_spec (length width height : ℚ) :
    (validateMeasurements length width height = true ↔
      (50 ≤ length ∧ length ≤ 500) ∧ (20 ≤ width ∧ width ≤ 200) ∧
        (10 ≤ height ∧ height ≤ 150)) ∧
    validateMeasurements 50 20 10 = true ∧
    validateMeasurements 500 200 150 = true ∧
    validateMeasurements (499/10) 20 10 = false ∧
    validateMeasurements (5001/10) 200 150 = false := by
  refine ⟨?_, ?_, ?_, ?_, ?_⟩ <;> simp [validateMeasurements] <;> norm_num

/-- `minY + (maxY - minY) * 0.15`, the sole threshold local of
`measureFootLength` (src/unnamed/part_000, line 284). -/
def footSoleThreshold15 (vertices : List Vertex) : ℚ :=
  qmin (vertices.map Vertex.y) +
    (qmax (vertices.map Vertex.y) - qmin (vertices.map Vertex.y)) * (15/100)

/-- The `footSoleVertices` local of `measureFootLength` (line 287). -/
def footSoleVertices15 (vertices : List Vertex) : List Vertex :=
  vertices.filter fun v => decide (v.y ≤ footSoleThreshold15 vertices)

/-- `MeasurementEngine.measureFootLength` (src/unnamed/part_000,
lines 273-309): Z-extent over the sole vertices, with fallbacks. -/
def measureFootLength (vertices : List Vertex) (bbox : Option Box3) : ℚ :=
  if vertices.isEmpty then
    match bbox with
    | some b => b.getSize.z
    | none => 0
  else
    if (footSoleVertices15 vertices).isEmpty then
      qmax (vertices.map Vertex.z) - qmin (vertices.map Vertex.z)
    else
      |qmax ((footSoleVertices15 vertices).map Vertex.z) -
        qmin ((footSoleVertices15 vertices).map Vertex.z)|

/-- `minY + (maxY - minY) * 0.2`, the sole threshold local of
`measureFootWidth` (src/unnamed/part_000, line 335). -/
def footSoleThreshold20 (vertices : List Vertex) : ℚ :=
  qmin (vertices.map Vertex.y) +
    (qmax (vertices.map Vertex.y) - qmin (vertices.map Vertex.y)) * (2/10)

/-- `minZ + footLength * 0.6`, the `ballStartZ` local of `measureFootWidth`
(line 328); `footLength` is the full Z-range. -/
def ballStartZ (vertices : List Vertex) : ℚ :=
  qmin (vertices.map Vertex.z) +
    (qmax (vertices.map Vertex.z) - qmin (vertices.map Vertex.z)) * (6/10)

/-- `minZ + footLength * 0.75`, the `ballEndZ` local of `measureFootWidth`
(line 329). -/
def ballEndZ (vertices : List Vertex) : ℚ :=
  qmin (vertices.map Vertex.z) +
    (qmax (vertices.map Vertex.z) - qmin (vertices.map Vertex.z)) * (75/100)

/-- The `ballVertices` local of `measureFootWidth` (lines 338-340). -/
def ballVertices (vertices : List Vertex) : List Vertex :=
  vertices.filter fun v =>
    decide (ballStartZ vertices ≤ v.z ∧ v.z ≤ ballEndZ vertices ∧
      v.y ≤ footSoleThreshold20 vertices)

/-- `MeasurementEngine.measureFootWidth` (src/unnamed/part_000,
lines 314-362): X-extent over the ball-band sole vertices, with fallbacks. -/
def measureFootWidth (vertices : List Vertex) (bbox : Option Box3) : ℚ :=
  if vertices.isEmpty then
    match bbox with
    | some b => b.getSize.x
    | none => 0
  else
    if (ballVertices vertices).isEmpty then
      qmax (vertices.map Vertex.x) - qmin (vertices.map Vertex.x)
    else
      |qmax ((ballVertices vertices).map Vertex.x) -
        qmin ((ballVertices vertices).map Vertex.x)|

/-- `minZ + footLength * 0.3`, the `instepStartZ` local of
`measureFootHeight` (src/unnamed/part_000, line 384). -/
def instepStartZ (vertices : List Vertex) : ℚ :=
  qmin (vertices.map Vertex.z) +
    (qmax (vertices.map Vertex.z) - qmin (vertices.map Vertex.z)) * (3/10)

/-- `minZ + footLength * 0.7`, the `instepEndZ` local of `measureFootHeight`
(line 385). -/
def instepEndZ (vertices : List Vertex) : ℚ :=
  qmin (vertices.map Vertex.z) +
    (qmax (vertices.map Vertex.z) - qmin (vertices.map Vertex.z)) * (7/10)

/-- The `instepVertices` local of `measureFootHeight` (lines 387-389):
only a Z-band filter, no Y filter. -/
def instepVertices (vertices : List Vertex) : List Vertex :=
  vertices.filter fun v =>
    decide (instepStartZ vertices ≤ v.z ∧ v.z ≤ instepEndZ vertices)

/-- `MeasurementEngine.measureFootHeight` (src/unnamed/part_000,
lines 367-409): max instep Y minus the single global minimum Y. -/
def measureFootHeight (vertices : List Vertex) (bbox : Option Box3) : ℚ :=
  if vertices.isEmpty then
    match bbox with
    | some b => b.getSize.y
    | none => 0
  else
    if (instepVertices vertices).isEmpty then
      qmax (vertices.map Vertex.y) - qmin (vertices.map Vertex.y)
    else
      |qmax ((instepVertices vertices).map Vertex.y) -
        qmin (vertices.map Vertex.y)|

theorem foldl_min_le_init (xs : List ℚ) (x : ℚ) : xs.foldl min x ≤ x := by
  induction xs generalizing x with
  | nil => exact le_refl x
  | cons a tl ih =>
    calc tl.foldl min (min x a) ≤ min x a := ih (min x a)
    _ ≤ x := min_le_left x a

theorem init_le_foldl_max (xs : List ℚ) (x : ℚ) : x ≤ xs.foldl max x := by
  induction xs generalizing x with
  | nil => exact le_refl x
  | cons a tl ih =>
    calc x ≤ max x a := le_max_left x a
    _ ≤ tl.foldl max (max x a) := ih (max x a)

theorem qmin_le_qmax (l : List ℚ) (h : l ≠ []) : qmin l ≤ qmax l := by
  match l with
  | [] => exact absurd rfl h
  | x :: tl =>
    calc qmin (x :: tl) ≤ x := foldl_min_le_init tl x
    _ ≤ qmax (x :: tl) := init_le_foldl_max tl x

theorem isEmpty_false_of_ne_nil {α : Type} {l : List α} (h : l ≠ []) :
    l.isEmpty = false := by
  cases l with
  | nil => exact absurd rfl h
  | cons a tl => rfl

theorem foldl_min_le_mem (tl : List ℚ) (init x : ℚ) (h : x ∈ tl) :
    tl.foldl min init ≤ x := by
  induction tl generalizing init with
  | nil => cases h
  | cons a tl ih =>
    rcases List.mem_cons.mp h with rfl | h2
    · calc tl.foldl min (min init x) ≤ min init x := foldl_min_le_init _ _
      _ ≤ x := min_le_right _ _
    · exact ih (min init a) h2

theorem mem_le_foldl_max (tl : List ℚ) (init x : ℚ) (h : x ∈ tl) :
    x ≤ tl.foldl max init := by
  induction tl generalizing init with
  | nil => cases h
  | cons a tl ih =>
    rcases List.mem_cons.mp h with rfl | h2
    · calc x ≤ max init x := le_max_right _ _
      _ ≤ tl.foldl max (max init x) := init_le_foldl_max _ _
    · exact ih (max init a) h2

theorem qmin_le_of_mem {l : List ℚ} {x : ℚ} (h : x ∈ l) : qmin l ≤ x := by
  match l with
  | [] => cases h
  | a :: tl =>
    rcases List.mem_cons.mp h with rfl | h2
    · exact foldl_min_le_init tl x
    · exact foldl_min_le_mem tl a x h2

theorem le_qmax_of_mem {l : List ℚ} {x : ℚ} (h : x ∈ l) : x ≤ qmax l := by
  match l with
  | [] => cases h
  | a :: tl =>
    rcases List.mem_cons.mp h with rfl | h2
    · exact init_le_foldl_max tl x
    · exact mem_le_foldl_max tl a x h2

/-- C2: for a non-empty vertex list whose sole filter (the vertices with
`y ≤ minY + (maxY - minY) * 0.15`) is non-empty, `measureFootLength`
returns max Z minus min Z over exactly those filtered vertices; if the
filtered set is empty it returns the Z-extent of the full vertex list; for
an empty vertex list it returns the bounding box's Z-extent. -/
theorem measureFootLength_spec (vs : List Vertex) (b : Box3)
    (hb : b.isEmpty = false) :
    (vs = [] → measureFootLength vs (some b) = b.bmax.z - b.bmin.z) ∧
    (vs ≠ [] →
      footSoleVertices15 vs =
        vs.filter (fun v => decide (v.y ≤ qmin (vs.map Vertex.y) +
          (qmax (vs.map Vertex.y) - qmin (vs.map Vertex.y)) * (15/100))) ∧
      (footSoleVertices15 vs ≠ [] →
        measureFootLength vs (some b) =
          qmax ((footSoleVertices15 vs).map Vertex.z) -
            qmin ((footSoleVertices15 vs).map Vertex.z)) ∧
      (footSoleVertices15 vs = [] →
        measureFootLength vs (some b) =
          qmax (vs.map Vertex.z) - qmin (vs.map Vertex.z))) := by
  constructor
  · rintro rfl
    simp [measureFootLength, Box3.getSize, hb]
  · intro hne
    have h1 : vs.isEmpty = false := isEmpty_false_of_ne_nil hne
    refine ⟨rfl, ?_, ?_⟩
    · intro hf
      have h2 : (footSoleVertices15 vs).isEmpty = false :=
        isEmpty_false_of_ne_nil hf
      have h3 : (footSoleVertices15 vs).map Vertex.z ≠ [] := by
        intro hm
        exact hf (List.map_eq_nil_iff.mp hm)
      simp only [measureFootLength, h1, h2, Bool.false_eq_true, if_false]
      exact abs_of_nonneg (sub_nonneg.mpr (qmin_le_qmax _ h3))
    · intro hf
      have h2 : (footSoleVertices15 vs).isEmpty = true := by
        rw [hf]; rfl
      simp only [measureFootLength, h1, h2, Bool.false_eq_true, if_false,
        if_true]

/-- Witness for `measureFootLength_spec`: a 3-vertex list whose sole filter
keeps the two low-Y vertices (z = 0 and z = 5), giving length 5. -/
theorem measureFootLength_spec_witness :
    measureFootLength [⟨0, 0, 0⟩, ⟨2, 10, 20⟩, ⟨1, 1, 5⟩]
      (some ⟨⟨0, 0, 0⟩, ⟨2, 10, 20⟩⟩) = 5 := by
  have hfil : footSoleVertices15 [⟨0, 0, 0⟩, ⟨2, 10, 20⟩, ⟨1, 1, 5⟩] =
      [⟨0, 0, 0⟩, ⟨1, 1, 5⟩] := by
    norm_num [footSoleVertices15, footSoleThreshold15, qmin, qmax, List.filter]
  have h := ((measureFootLength_spec [⟨0, 0, 0⟩, ⟨2, 10, 20⟩, ⟨1, 1, 5⟩]
      ⟨⟨0, 0, 0⟩, ⟨2, 10, 20⟩⟩ (by decide)).2 (by simp)).2.1
    (by rw [hfil]; simp)
  rw [h, hfil]
  norm_num [qmin, qmax]

/-- C3: for a non-empty vertex list whose ball filter (the vertices with
`z` in `[minZ + 0.60 * footLength, minZ + 0.75 * footLength]` and
`y ≤ minY + (maxY - minY) * 0.2`) is non-empty, `measureFootWidth` returns
max X minus min X over exactly those filtered vertices; if the filtered set
is empty it returns the X-extent of the full vertex list; for an empty
vertex list it returns the bounding box's X-extent. -/
theorem measureFootWidth_spec (vs : List Vertex) (b : Box3)
    (hb : b.isEmpty = false) :
    (vs = [] → measureFootWidth vs (some b) = b.bmax.x - b.bmin.x) ∧
    (vs ≠ [] →
      ballVertices vs =
        vs.filter (fun v => decide
          (qmin (vs.map Vertex.z) +
              (qmax (vs.map Vertex.z) - qmin (vs.map Vertex.z)) * (6/10) ≤
            v.z ∧
          v.z ≤ qmin (vs.map Vertex.z) +
              (qmax (vs.map Vertex.z) - qmin (vs.map Vertex.z)) * (75/100) ∧
          v.y ≤ qmin (vs.map Vertex.y) +
              (qmax (vs.map Vertex.y) - qmin (vs.map Vertex.y)) * (2/10))) ∧
      (ballVertices vs ≠ [] →
        measureFootWidth vs (some b) =
          qmax ((ballVertices vs).map Vertex.x) -
            qmin ((ballVertices vs).map Vertex.x)) ∧
      (ballVertices vs = [] →
        measureFootWidth vs (some b) =
          qmax (vs.map Vertex.x) - qmin (vs.map Vertex.x))) := by
  constructor
  · rintro rfl
    simp [measureFootWidth, Box3.getSize, hb]
  · intro hne
    have h1 : vs.isEmpty = false := isEmpty_false_of_ne_nil hne
    refine ⟨rfl, ?_, ?_⟩
    · intro hf
      have h2 : (ballVertices vs).isEmpty = false := isEmpty_false_of_ne_nil hf
      have h3 : (ballVertices vs).map Vertex.x ≠ [] := by
        intro hm
        exact hf (List.map_eq_nil_iff.mp hm)
      simp only [measureFootWidth, h1, h2, Bool.false_eq_true, if_false]
      exact abs_of_nonneg (sub_nonneg.mpr (qmin_le_qmax _ h3))
    · intro hf
      have h2 : (ballVertices vs).isEmpty = true := by rw [hf]; rfl
      simp only [measureFootWidth, h1, h2, Bool.false_eq_true, if_false,
        if_true]

/-- Witness for `measureFootWidth_spec`: ball band is z ∈ [60, 75], sole
threshold is y ≤ 2; the surviving vertices have x ∈ {-2, 3}, width 5. -/
theorem measureFootWidth_spec_witness :
    measureFootWidth
      [⟨0, 0, 0⟩, ⟨0, 10, 100⟩, ⟨3, 1, 70⟩, ⟨-2, 1, 65⟩, ⟨50, 9, 70⟩]
      (some ⟨⟨-2, 0, 0⟩, ⟨50, 10, 100⟩⟩) = 5 := by
  have hfil : ballVertices
      [⟨0, 0, 0⟩, ⟨0, 10, 100⟩, ⟨3, 1, 70⟩, ⟨-2, 1, 65⟩, ⟨50, 9, 70⟩] =
      [⟨3, 1, 70⟩, ⟨-2, 1, 65⟩] := by
    norm_num [ballVertices, ballStartZ, ballEndZ, footSoleThreshold20, qmin,
      qmax, List.filter]
  have h := ((measureFootWidth_spec
      [⟨0, 0, 0⟩, ⟨0, 10, 100⟩, ⟨3, 1, 70⟩, ⟨-2, 1, 65⟩, ⟨50, 9, 70⟩]
      ⟨⟨-2, 0, 0⟩, ⟨50, 10, 100⟩⟩ (by decide)).2 (by simp)).2.1
    (by rw [hfil]; simp)
  rw [h, hfil]
  norm_num [qmin, qmax]

/-- C4: for a non-empty vertex list whose instep filter (the vertices with
`z` in `[minZ + 0.30 * footLength, minZ + 0.70 * footLength]`, with no Y
filter) is non-empty, `measureFootHeight` returns the max Y within that
band minus the single global minimum Y over all vertices; if the band is
empty it returns the full Y-extent; for an empty vertex list it returns
the bounding box's Y-extent. -/
theorem measureFootHeight_spec (vs : List Vertex) (b : Box3)
    (hb : b.isEmpty = false) :
    (vs = [] → measureFootHeight vs (some b) = b.bmax.y - b.bmin.y) ∧
    (vs ≠ [] →
      instepVertices vs =
        vs.filter (fun v => decide
          (qmin (vs.map Vertex.z) +
              (qmax (vs.map Vertex.z) - qmin (vs.map Vertex.z)) * (3/10) ≤
            v.z ∧
          v.z ≤ qmin (vs.map Vertex.z) +
              (qmax (vs.map Vertex.z) - qmin (vs.map Vertex.z)) * (7/10))) ∧
      (instepVertices vs ≠ [] →
        measureFootHeight vs (some b) =
          qmax ((instepVertices vs).map Vertex.y) - qmin (vs.map Vertex.y)) ∧
      (instepVertices vs = [] →
        measureFootHeight vs (some b) =
          qmax (vs.map Vertex.y) - qmin (vs.map Vertex.y))) := by
  constructor
  · rintro rfl
    simp [measureFootHeight, Box3.getSize, hb]
  · intro hne
    have h1 : vs.isEmpty = false := isEmpty_false_of_ne_nil hne
    refine ⟨rfl, ?_, ?_⟩
    · intro hf
      have h2 : (instepVertices vs).isEmpty = false :=
        isEmpty_false_of_ne_nil hf
      obtain ⟨v, hv⟩ := List.exists_mem_of_ne_nil _ hf
      have hv2 : v ∈ vs := List.mem_of_mem_filter hv
      have hlow : qmin (vs.map Vertex.y) ≤ v.y :=
        qmin_le_of_mem (List.mem_map_of_mem Vertex.y hv2)
      have hhigh : v.y ≤ qmax ((instepVertices vs).map Vertex.y) :=
        le_qmax_of_mem (List.mem_map_of_mem Vertex.y hv)
      simp only [measureFootHeight, h1, h2, Bool.false_eq_true, if_false]
      exact abs_of_nonneg (sub_nonneg.mpr (le_trans hlow hhigh))
    · intro hf
      have h2 : (instepVertices vs).isEmpty = true := by rw [hf]; rfl
      simp only [measureFootHeight, h1, h2, Bool.false_eq_true, if_false,
        if_true]

/-- Witness for `measureFootHeight_spec`: instep band is z ∈ [30, 70], the
band's max Y is 6 and the global min Y is 0, giving height 6. -/
theorem measureFootHeight_spec_witness :
    measureFootHeight [⟨0, 0, 0⟩, ⟨0, 10, 100⟩, ⟨0, 6, 50⟩, ⟨0, 4, 40⟩]
      (some ⟨⟨0, 0, 0⟩, ⟨0, 10, 100⟩⟩) = 6 := by
  have hfil : instepVertices
      [⟨0, 0, 0⟩, ⟨0, 10, 100⟩, ⟨0, 6, 50⟩, ⟨0, 4, 40⟩] =
      [⟨0, 6, 50⟩, ⟨0, 4, 40⟩] := by
    norm_num [instepVertices, instepStartZ, instepEndZ, qmin, qmax,
      List.filter]
  have h := ((measureFootHeight_spec
      [⟨0, 0, 0⟩, ⟨0, 10, 100⟩, ⟨0, 6, 50⟩, ⟨0, 4, 40⟩]
      ⟨⟨0, 0, 0⟩, ⟨0, 10, 100⟩⟩ (by decide)).2 (by simp)).2.1
    (by rw [hfil]; simp)
  rw [h, hfil]
  norm_num [qmin, qmax]

/-- Result record of `analyzeFootType`. -/
structure Analysis where
  footType : String
  archType : String
  description : String
deriving Repr, DecidableEq

/-- `MeasurementEngine.analyzeFootType` (src/unnamed/part_000,
lines 427-463), identical to `SceneManager.analyzeFootType`
(src/claude_ask/js/scene-manager.js, lines 805-841).  JS falsiness of a
number is `= 0` here (NaN is not modelled).  The source selects `footType`
and `description` in one branch; they are laid out per field here with the
same conditions. -/
def analyzeFootType (length width height : ℚ) : Analysis :=
  if length = 0 ∨ width = 0 ∨ height = 0 then
    ⟨"Analysis Pending", "Analysis Pending",
      "Insufficient data for comprehensive analysis"⟩
  else
    ⟨if length / width > 26/10 then "Long Foot Type"
      else if length / width < 22/10 then "Wide Foot Type"
      else "Normal Foot Type",
     if height / length > 25/100 then "High Arch"
      else if height / length < 18/100 then "Low Arch / Flat Foot"
      else "Normal Arch",
     if length / width > 26/10 then
        "Elongated foot shape with longer toes and narrow profile"
      else if length / width < 22/10 then
        "Broader foot shape with wider forefoot area"
      else "Well-balanced foot proportions with standard dimensions"⟩

/-- C7: the shape classifier uses strict inequalities — `length/width`
above 2.6 gives "Long Foot Type", below 2.2 gives "Wide Foot Type", the
closed band [2.2, 2.6] (including both boundaries) gives
"Normal Foot Type"; `height/length` above 0.25 gives "High Arch", below
0.18 gives "Low Arch / Flat Foot", the closed band [0.18, 0.25] gives
"Normal Arch"; any zero (falsy) input gives the "Analysis Pending"
sentinel. -/
theorem analyzeFootType_spec (length width height : ℚ) :
    (length = 0 ∨ width = 0 ∨ height = 0 →
      analyzeFootType length width height =
        ⟨"Analysis Pending", "Analysis Pending",
          "Insufficient data for comprehensive analysis"⟩) ∧
    (length ≠ 0 → width ≠ 0 → height ≠ 0 →
      (26/10 < length / width →
        (analyzeFootType length width height).footType = "Long Foot Type") ∧
      (length / width < 22/10 →
        (analyzeFootType length width height).footType = "Wide Foot Type") ∧
      (22/10 ≤ length / width → length / width ≤ 26/10 →
        (analyzeFootType length width height).footType = "Normal Foot Type") ∧
      (25/100 < height / length →
        (analyzeFootType length width height).archType = "High Arch") ∧
      (height / length < 18/100 →
        (analyzeFootType length width height).archType =
          "Low Arch / Flat Foot") ∧
      (18/100 ≤ height / length → height / length ≤ 25/100 →
        (analyzeFootType length width height).archType = "Normal Arch")) := by
  constructor
  · intro h
    rw [analyzeFootType, if_pos h]
  · intro hl hw hh
    have hcond : ¬(length = 0 ∨ width = 0 ∨ height = 0) := by
      rintro (h | h | h) <;> [exact hl h; exact hw h; exact hh h]
    rw [analyzeFootType, if_neg hcond]
    refine ⟨?_, ?_, ?_, ?_, ?_, ?_⟩
    · intro h
      simp only [gt_iff_lt]
      rw [if_pos h]
    · intro h
      simp only [gt_iff_lt]
      rw [if_neg (by linarith), if_pos h]
    · intro h1 h2
      simp only [gt_iff_lt]
      rw [if_neg (by linarith), if_neg (by linarith)]
    · intro h
      simp only [gt_iff_lt]
      rw [if_pos h]
    · intro h
      simp only [gt_iff_lt]
      rw [if_neg (by linarith), if_pos h]
    · intro h1 h2
      simp only [gt_iff_lt]
      rw [if_neg (by linarith), if_neg (by linarith)]

/-- Witness for `analyzeFootType_spec` at (260, 100, 60): the ratio 2.6 is
exactly the boundary and lands in "Normal Foot Type", and 60/260 lands in
"Normal Arch". -/
theorem analyzeFootType_spec_witness :
    (analyzeFootType 260 100 60).footType = "Normal Foot Type" ∧
    (analyzeFootType 260 100 60).archType = "Normal Arch" :=
  ⟨(((analyzeFootType_spec 260 100 60).2 (by norm_num) (by norm_num)
      (by norm_num)).2.2.1 (by norm_num) (by norm_num)),
   (((analyzeFootType_spec 260 100 60).2 (by norm_num) (by norm_num)
      (by norm_num)).2.2.2.2.2 (by norm_num) (by norm_num))⟩

/-- The `footMeasurements` record the engine stores and returns
(src/unnamed/part_000, lines 104-113 and 188-197). -/
structure MeasurementRecord where
  length : ℚ
  width : ℚ
  height : ℚ
  unit : String
  confidence : String
  originalVertices : List Vertex
  boundingBox : Option Box3
  vertexCount : Nat
deriving Repr, DecidableEq

/-- Result record of `calculateRatios`; `none` models the 'N/A' branch. -/
structure Ratios where
  lengthWidth : Option ℚ
  heightLength : Option ℚ
deriving Repr, DecidableEq

/-- `MeasurementEngine.calculateRatios` (src/unnamed/part_000,
lines 414-422): the numeric ratios; the source's `toFixed` string
formatting of them is display-only and not modelled. -/
def calculateRatios (length width height : ℚ) : Ratios :=
  ⟨if length ≠ 0 ∧ width ≠ 0 then some (length / width) else none,
   if height ≠ 0 ∧ length ≠ 0 then some (height / length * 100) else none⟩

/-- The `{ measurements, ratios, analysis }` object returned by
`performFallbackMeasurement`. -/
structure FallbackResult where
  measurements : MeasurementRecord
  ratios : Ratios
  analysis : Analysis
deriving Repr, DecidableEq

/-- `MeasurementEngine.performFallbackMeasurement` (src/unnamed/part_000,
lines 157-203).  `geometry.computeBoundingBox()` recomputes the box from
the geometry's raw (unrotated) positions, modelled by `setFromPoints`. -/
def performFallbackMeasurement (positions : List Vertex) : FallbackResult :=
  let bbox := setFromPoints positions
  let size := sizeOfBox bbox
  let maxDim := max size.x (max size.y size.z)
  let unitMultiplier : ℚ :=
    if maxDim < 1 then 1000
    else if maxDim > 500 then 1
    else 1
  let footLength := size.z * unitMultiplier
  let footWidth := size.x * unitMultiplier
  let footHeight := size.y * unitMultiplier
  let measurements : MeasurementRecord :=
    ⟨max footLength 50, max footWidth 30, max footHeight 20, "mm",
      "낮음 (폴백 모드)", [], bbox, positions.length⟩
  ⟨measurements,
   calculateRatios measurements.length measurements.width
     measurements.height,
   analyzeFootType measurements.length measurements.width
     measurements.height⟩

theorem foldl_expand_replicate (n : Nat) (v : Vertex) :
    (List.replicate n v).foldl expandByPoint ⟨v, v⟩ = ⟨v, v⟩ := by
  induction n with
  | zero => rfl
  | succ k ih =>
    have hstep : expandByPoint ⟨v, v⟩ v = ⟨v, v⟩ := by
      simp [expandByPoint]
    rw [List.replicate_succ, List.foldl_cons, hstep, ih]

/-- C6: `performFallbackMeasurement` is total and builds its measurements
from plain axis-aligned bounding-box extents (length = Z, width = X,
height = Y), scaled by 1000 when the maximum extent is below 1 and by 1
otherwise, then floored to length ≥ 50, width ≥ 30, height ≥ 20, with the
low-confidence fallback label; a degenerate all-identical vertex list
(zero-extent box) yields exactly the floors 50/30/20. -/
theorem performFallbackMeasurement_spec (positions : List Vertex) :
    ((performFallbackMeasurement positions).measurements.length =
      max ((sizeOfBox (setFromPoints positions)).z *
        (if max (sizeOfBox (setFromPoints positions)).x
            (max (sizeOfBox (setFromPoints positions)).y
              (sizeOfBox (setFromPoints positions)).z) < 1
          then 1000 else 1)) 50) ∧
    ((performFallbackMeasurement positions).measurements.width =
      max ((sizeOfBox (setFromPoints positions)).x *
        (if max (sizeOfBox (setFromPoints positions)).x
            (max (sizeOfBox (setFromPoints positions)).y
              (sizeOfBox (setFromPoints positions)).z) < 1
          then 1000 else 1)) 30) ∧
    ((performFallbackMeasurement positions).measurements.height =
      max ((sizeOfBox (setFromPoints positions)).y *
        (if max (sizeOfBox (setFromPoints positions)).x
            (max (sizeOfBox (setFromPoints positions)).y
              (sizeOfBox (setFromPoints positions)).z) < 1
          then 1000 else 1)) 20) ∧
    50 ≤ (performFallbackMeasurement positions).measurements.length ∧
    30 ≤ (performFallbackMeasurement positions).measurements.width ∧
    20 ≤ (performFallbackMeasurement positions).measurements.height ∧
    (performFallbackMeasurement positions).measurements.unit = "mm" ∧
    (performFallbackMeasurement positions).measurements.confidence =
      "낮음 (폴백 모드)" ∧
    (∀ (v : Vertex) (n : Nat), positions = List.replicate (n + 1) v →
      (performFallbackMeasurement positions).measurements.length = 50 ∧
      (performFallbackMeasurement positions).measurements.width = 30 ∧
      (performFallbackMeasurement positions).measurements.height = 20) := by
  have hmul : ∀ m : ℚ,
      (if m < 1 then (1000 : ℚ) else if m > 500 then 1 else 1) =
        if m < 1 then 1000 else 1 := by
    intro m
    split_ifs <;> rfl
  refine ⟨?_, ?_, ?_, ?_, ?_, ?_, ?_, ?_, ?_⟩
  · simp only [performFallbackMeasurement, hmul]
  · simp only [performFallbackMeasurement, hmul]
  · simp only [performFallbackMeasurement, hmul]
  · simp only [performFallbackMeasurement]
    exact le_max_right _ _
  · simp only [performFallbackMeasurement]
    exact le_max_right _ _
  · simp only [performFallbackMeasurement]
    exact le_max_right _ _
  · simp only [performFallbackMeasurement]
  · simp only [performFallbackMeasurement]
  · rintro v n rfl
    have hbox : setFromPoints (List.replicate (n + 1) v) = some ⟨v, v⟩ := by
      rw [List.replicate_succ]
      simp only [setFromPoints]
      rw [foldl_expand_replicate]
    have hsize : sizeOfBox (setFromPoints (List.replicate (n + 1) v)) =
        ⟨0, 0, 0⟩ := by
      rw [hbox]
      simp only [sizeOfBox, Box3.getSize]
      split_ifs <;> simp
    refine ⟨?_, ?_, ?_⟩ <;>
      simp only [performFallbackMeasurement, hsize] <;> norm_num

/-- Witness for `performFallbackMeasurement_spec` at a degenerate list of
three identical vertices: the output is exactly the floors 50/30/20. -/
theorem performFallbackMeasurement_spec_witness :
    (performFallbackMeasurement
        (List.replicate 3 ⟨1, 2, 3⟩)).measurements.length = 50 ∧
    (performFallbackMeasurement
        (List.replicate 3 ⟨1, 2, 3⟩)).measurements.width = 30 ∧
    (performFallbackMeasurement
        (List.replicate 3 ⟨1, 2, 3⟩)).measurements.height = 20 :=
  (performFallbackMeasurement_spec
      (List.replicate 3 ⟨1, 2, 3⟩)).2.2.2.2.2.2.2.2 ⟨1, 2, 3⟩ 2 rfl

/-- Comparison record of the bilateral (dual-foot) computation.  The
symmetry fields are `Option`-valued: `none` models a non-finite JS number
(NaN, as produced by `0/0` when an axis max is zero). -/
structure ComparisonRecord where
  lengthDiff : ℚ
  widthDiff : ℚ
  heightDiff : ℚ
  lengthSymmetry : Option ℚ
  widthSymmetry : Option ℚ
  heightSymmetry : Option ℚ
  overallSymmetry : Option ℤ
deriving Repr, DecidableEq

/-- One axis of the symmetry computation,
`(1 - diff / max(left, right)) * 100` (scene-manager.js lines 1614-1616).
The source has no zero guard: a zero max makes the JS division non-finite
(`0/0 = NaN` for equal records), modelled as `none`. -/
def axisSymmetry (l r : ℚ) : Option ℚ :=
  if max l r = 0 then none
  else some ((1 - |l - r| / max l r) * 100)

/-- JS `Math.round`: round half toward positive infinity. -/
def jsRound (q : ℚ) : ℤ := ⌊q + 1/2⌋

/-- The numeric core of `SceneManager.updateComparisonData`
(src/claude_ask/js/scene-manager.js, lines 1602-1622), identical to the
computation in `addComparisonSection`
(src/dual_foot_QR/js/report-generator.js, lines 176-196): per-axis
absolute differences, per-axis symmetry percentages, and the rounded mean.
A non-finite (`none`) axis symmetry propagates into the overall score,
exactly as NaN propagates through `+`, `/` and `Math.round` in JS. -/
def updateComparisonData (left right : MeasurementRecord) :
    ComparisonRecord :=
  let lengthDiff := |left.length - right.length|
  let widthDiff := |left.width - right.width|
  let heightDiff := |left.height - right.height|
  let lengthSymmetry := axisSymmetry left.length right.length
  let widthSymmetry := axisSymmetry left.width right.width
  let heightSymmetry := axisSymmetry left.height right.height
  let overallSymmetry :=
    match lengthSymmetry, widthSymmetry, heightSymmetry with
    | some a, some b, some c => some (jsRound ((a + b + c) / 3))
    | _, _, _ => none
  ⟨lengthDiff, widthDiff, heightDiff, lengthSymmetry, widthSymmetry,
    heightSymmetry, overallSymmetry⟩

/-- A measurement record with a zero length, used to exercise the
zero-max axis of the bilateral comparison. -/
def zeroLengthRecord : MeasurementRecord :=
  ⟨0, 100, 50, "mm", "높음 (mm 단위 감지)", [], none, 0⟩

/-- Counterexample to C9 as stated: comparing two identical records whose
length is 0 does NOT produce 0% length symmetry and a rounded-mean overall
score (which would be 67 here); the unguarded `0/0` makes both non-finite
(`none`), so the claimed zero-max guard does not exist in the code. -/
theorem updateComparisonData_zeroMax_counterexample :
    (updateComparisonData zeroLengthRecord zeroLengthRecord).lengthSymmetry
        ≠ some 0 ∧
    (updateComparisonData zeroLengthRecord zeroLengthRecord).overallSymmetry
        ≠ some 67 ∧
    (updateComparisonData zeroLengthRecord zeroLengthRecord).lengthSymmetry
        = none ∧
    (updateComparisonData zeroLengthRecord zeroLengthRecord).overallSymmetry
        = none := by
  have h1 : axisSymmetry zeroLengthRecord.length zeroLengthRecord.length =
      none := by
    simp [axisSymmetry, zeroLengthRecord]
  refine ⟨?_, ?_, ?_, ?_⟩ <;>
    simp only [updateComparisonData, h1] <;> simp

/-- C9 (amended): for every pair of measurement records the bilateral
comparison computes per-axis `diff = |left - right|` and, whenever the
axis max is nonzero, axis symmetry `(1 - diff / max) * 100`, and the
overall score is the arithmetic mean of the three axis symmetries rounded
half-up; when an axis max is zero the unguarded division makes that axis
symmetry and the overall score non-finite (`none`), not 0%; for two
identical records with positive dimensions all diffs are 0 and the score
is 100. -/
theorem updateComparisonData_spec (left right : MeasurementRecord) :
    (updateComparisonData left right).lengthDiff =
      |left.length - right.length| ∧
    (updateComparisonData left right).widthDiff =
      |left.width - right.width| ∧
    (updateComparisonData left right).heightDiff =
      |left.height - right.height| ∧
    (max left.length right.length ≠ 0 →
      (updateComparisonData left right).lengthSymmetry =
        some ((1 - |left.length - right.length| /
          max left.length right.length) * 100)) ∧
    (max left.length right.length = 0 →
      (updateComparisonData left right).lengthSymmetry = none) ∧
    (max left.length right.length ≠ 0 → max left.width right.width ≠ 0 →
      max left.height right.height ≠ 0 →
      (updateComparisonData left right).overallSymmetry = some (jsRound
        (((1 - |left.length - right.length| /
            max left.length right.length) * 100 +
          (1 - |left.width - right.width| /
            max left.width right.width) * 100 +
          (1 - |left.height - right.height| /
            max left.height right.height) * 100) / 3))) ∧
    (max left.length right.length = 0 ∨ max left.width right.width = 0 ∨
        max left.height right.height = 0 →
      (updateComparisonData left right).overallSymmetry = none) ∧
    (left = right → 0 < left.length → 0 < left.width → 0 < left.height →
      (updateComparisonData left right).lengthDiff = 0 ∧
      (updateComparisonData left right).widthDiff = 0 ∧
      (updateComparisonData left right).heightDiff = 0 ∧
      (updateComparisonData left right).overallSymmetry = some 100) := by
  have hsym : ∀ l r : ℚ, max l r ≠ 0 →
      axisSymmetry l r = some ((1 - |l - r| / max l r) * 100) := by
    intro l r h
    rw [axisSymmetry, if_neg h]
  have hself : ∀ l : ℚ, 0 < l → axisSymmetry l l = some 100 := by
    intro l hl
    rw [hsym l l (by simp; linarith)]
    simp
  refine ⟨rfl, rfl, rfl, ?_, ?_, ?_, ?_, ?_⟩
  · intro h
    simp only [updateComparisonData]
    exact hsym _ _ h
  · intro h
    simp only [updateComparisonData, axisSymmetry, if_pos h]
  · intro h1 h2 h3
    simp only [updateComparisonData, hsym _ _ h1, hsym _ _ h2, hsym _ _ h3]
  · intro h
    rcases h with h | h | h <;>
      simp only [updateComparisonData, axisSymmetry, if_pos h] <;>
      split_ifs <;> rfl
  · rintro rfl h1 h2 h3
    refine ⟨by simp [updateComparisonData], by simp [updateComparisonData],
      by simp [updateComparisonData], ?_⟩
    simp only [updateComparisonData, hself _ h1, hself _ h2, hself _ h3]
    norm_num [jsRound]

/-- A plausible validated measurement record, used as concrete input. -/
def demoRecord : MeasurementRecord :=
  ⟨250, 100, 65, "mm", "높음 (mm 단위 감지)", [], none, 0⟩

/-- Witness for `updateComparisonData_spec`: two identical (250, 100, 65)
records give zero diffs and a 100% overall symmetry score. -/
theorem updateComparisonData_spec_witness :
    (updateComparisonData demoRecord demoRecord).lengthDiff = 0 ∧
    (updateComparisonData demoRecord demoRecord).widthDiff = 0 ∧
    (updateComparisonData demoRecord demoRecord).heightDiff = 0 ∧
    (updateComparisonData demoRecord demoRecord).overallSymmetry =
      some 100 :=
  (updateComparisonData_spec demoRecord demoRecord).2.2.2.2.2.2.2 rfl
    (by norm_num [demoRecord]) (by norm_num [demoRecord])
    (by norm_num [demoRecord])

/-- The engine's per-instance state: the `footMeasurements` field.  The
constructor initialises it to `{}`, modelled by `none`. -/
structure EngineState where
  footMeasurements : Option MeasurementRecord
deriving Repr, DecidableEq

/-- The lifecycle notifications dispatched by the engine, carrying their
`detail.status` strings (the `complete` event also carries the
measurements in the source; those are the call's returned value here). -/
inductive EngineEvent where
  | measurementStarted (status : String)
  | measurementProgress (status : String)
  | measurementComplete (status : String)
deriving Repr, DecidableEq

/-- Input geometry: `position = none` models a null geometry, a missing
`attributes` object or a missing `position` attribute (the initial falsy
guard); `position = some vs` is a present vertex position buffer holding
`vs` (the N×3 float array, read three floats per vertex). -/
structure Geometry where
  position : Option (List Vertex)
deriving Repr, DecidableEq

/-- The `originalVertices` local of `performPreciseMeasurements`
(src/unnamed/part_000, lines 47-63): the raw positions with the optional
model rotation applied to every vertex. -/
def orientedVertices (positions : List Vertex)
    (rotation : Option (Vertex → Vertex)) : List Vertex :=
  match rotation with
  | none => positions
  | some m => positions.map m

/-- The `maxDim` local of `performPreciseMeasurements` (line 68):
`Math.max(size.x, size.y, size.z)` of the rotated vertices' bounding box. -/
def engineMaxDim (vs : List Vertex) : ℚ :=
  max (sizeOfBox (setFromPoints vs)).x
    (max (sizeOfBox (setFromPoints vs)).y (sizeOfBox (setFromPoints vs)).z)

/-- The scaled `footLength` local of `performPreciseMeasurements`
(line 86): the raw estimate times the detected unit multiplier. -/
def engineFootLength (vs : List Vertex) : ℚ :=
  measureFootLength vs (setFromPoints vs) *
    (detectUnit (engineMaxDim vs)).multiplier

/-- The scaled `footWidth` local of `performPreciseMeasurements`
(line 87). -/
def engineFootWidth (vs : List Vertex) : ℚ :=
  measureFootWidth vs (setFromPoints vs) *
    (detectUnit (engineMaxDim vs)).multiplier

/-- The scaled `footHeight` local of `performPreciseMeasurements`
(line 88). -/
def engineFootHeight (vs : List Vertex) : ℚ :=
  measureFootHeight vs (setFromPoints vs) *
    (detectUnit (engineMaxDim vs)).multiplier

/-- The record assigned to `this.footMeasurements` and returned by the
validated path (src/unnamed/part_000, lines 104-113 and 132). -/
def validatedRecord (positions : List Vertex)
    (rotation : Option (Vertex → Vertex)) : MeasurementRecord :=
  ⟨engineFootLength (orientedVertices positions rotation),
   engineFootWidth (orientedVertices positions rotation),
   engineFootHeight (orientedVertices positions rotation),
   (detectUnit (engineMaxDim (orientedVertices positions rotation))).unit,
   (detectUnit (engineMaxDim (orientedVertices positions rotation))).confidence,
   orientedVertices positions rotation,
   setFromPoints (orientedVertices positions rotation),
   positions.length⟩

/-- `MeasurementEngine.performPreciseMeasurements` (src/unnamed/part_000,
lines 17-152), as a state-passing function: takes the stored state, the
geometry and the optional rotation of `currentModel` (applied to every
vertex), and yields the new state, the dispatched events in order, and
the returned value (`none` when the source returns `undefined`).  The
source's `throw` sites (empty buffer, failed validation) are routed to
the `catch` fallback path, which recomputes a plain bounding box from the
raw (unrotated) positions.  The body's locals are the named definitions
`orientedVertices`, `engineMaxDim`, `engineFootLength`/`engineFootWidth`/
`engineFootHeight` and `validatedRecord` above. -/
def performPreciseMeasurements (st : EngineState) (geometry : Geometry)
    (rotation : Option (Vertex → Vertex)) :
    EngineState × List EngineEvent × Option MeasurementRecord :=
  match geometry.position with
  | none =>
    (st, [.measurementStarted "오류: 유효하지 않은 3D 데이터"], none)
  | some positions =>
    if positions.isEmpty then
      (st,
       [.measurementStarted "발 구조 분석 중...",
        .measurementComplete "기본 측정 완료 (폴백 모드)"],
       some (performFallbackMeasurement positions).measurements)
    else
      if validateMeasurements
          (engineFootLength (orientedVertices positions rotation))
          (engineFootWidth (orientedVertices positions rotation))
          (engineFootHeight (orientedVertices positions rotation)) then
        (⟨some (validatedRecord positions rotation)⟩,
         [.measurementStarted "발 구조 분석 중...",
          .measurementProgress "정밀 측정 수행 중...",
          .measurementComplete "측정 완료 - 정밀도 검증됨"],
         some (validatedRecord positions rotation))
      else
        (st,
         [.measurementStarted "발 구조 분석 중...",
          .measurementProgress "정밀 측정 수행 중...",
          .measurementComplete "기본 측정 완료 (폴백 모드)"],
         some (performFallbackMeasurement positions).measurements)

/-- Counterexample to C8 as stated: for a geometry whose vertex position
buffer is PRESENT but EMPTY, the call does return a measurement record
(the fallback record), and it emits two notifications (a normal "started"
and a fallback "complete"), not a single invalid-input notification: the
initial guard checks only presence of the position attribute, and the
empty-buffer throw inside `try` is caught and routed to the fallback. -/
theorem performPreciseMeasurements_empty_counterexample :
    (performPreciseMeasurements ⟨none⟩ ⟨some []⟩ none).2.2 ≠ none ∧
    (performPreciseMeasurements ⟨none⟩ ⟨some []⟩ none).2.1 ≠
      [EngineEvent.measurementStarted "오류: 유효하지 않은 3D 데이터"] ∧
    (performPreciseMeasurements ⟨none⟩ ⟨some []⟩ none).2.1.length = 2 := by
  refine ⟨?_, ?_, ?_⟩ <;> simp [performPreciseMeasurements]

/-- C8 (amended): a MISSING vertex position buffer aborts with no record
and a single invalid-input notification; a present-but-EMPTY buffer
instead emits a normal started notification, falls to the fallback path,
emits a fallback complete notification, and returns the fallback record
(floors 50/30/20 on the empty bounding box); no exception escapes either
call and the stored state is unchanged. -/
theorem performPreciseMeasurements_invalid_spec (st : EngineState)
    (rotation : Option (Vertex → Vertex)) :
    performPreciseMeasurements st ⟨none⟩ rotation =
      (st, [.measurementStarted "오류: 유효하지 않은 3D 데이터"], none) ∧
    performPreciseMeasurements st ⟨some []⟩ rotation =
      (st,
       [.measurementStarted "발 구조 분석 중...",
        .measurementComplete "기본 측정 완료 (폴백 모드)"],
       some ⟨50, 30, 20, "mm", "낮음 (폴백 모드)", [], none, 0⟩) := by
  have hfb : (performFallbackMeasurement []).measurements =
      ⟨50, 30, 20, "mm", "낮음 (폴백 모드)", [], none, 0⟩ := by
    simp only [performFallbackMeasurement, setFromPoints, sizeOfBox]
    norm_num
  constructor
  · rfl
  · simp only [performPreciseMeasurements, List.isEmpty_nil, if_true, hfb]

/-- Counterexample to C10 as stated: starting from an engine that stores
`demoRecord`, a call on the single-vertex geometry `[⟨0,0,0⟩]` fails
validation (all three measured dimensions are 0), takes the fallback path
and returns the fallback record — but the stored `footMeasurements` is NOT
replaced: the catch block never assigns it, so after the call the stored
record is still the previous call's `demoRecord`, different from the
returned record. -/
theorem performPreciseMeasurements_store_counterexample :
    (performPreciseMeasurements ⟨some demoRecord⟩ ⟨some [⟨0, 0, 0⟩]⟩
        none).2.2 ≠ none ∧
    (performPreciseMeasurements ⟨some demoRecord⟩ ⟨some [⟨0, 0, 0⟩]⟩
        none).1.footMeasurements = some demoRecord ∧
    (performPreciseMeasurements ⟨some demoRecord⟩ ⟨some [⟨0, 0, 0⟩]⟩
        none).1.footMeasurements ≠
      (performPreciseMeasurements ⟨some demoRecord⟩ ⟨some [⟨0, 0, 0⟩]⟩
        none).2.2 := by
  have hbox : setFromPoints [(⟨0, 0, 0⟩ : Vertex)] =
      some ⟨⟨0, 0, 0⟩, ⟨0, 0, 0⟩⟩ := rfl
  have hsize : sizeOfBox (some (⟨⟨0, 0, 0⟩, ⟨0, 0, 0⟩⟩ : Box3)) =
      ⟨0, 0, 0⟩ := by
    norm_num [sizeOfBox, Box3.getSize, Box3.isEmpty]
  have hlen : measureFootLength [⟨0, 0, 0⟩]
      (some ⟨⟨0, 0, 0⟩, ⟨0, 0, 0⟩⟩) = 0 := by
    norm_num [measureFootLength, footSoleVertices15, footSoleThreshold15,
      qmin, qmax, List.filter]
  have hwid : measureFootWidth [⟨0, 0, 0⟩]
      (some ⟨⟨0, 0, 0⟩, ⟨0, 0, 0⟩⟩) = 0 := by
    norm_num [measureFootWidth, ballVertices, ballStartZ, ballEndZ,
      footSoleThreshold20, qmin, qmax, List.filter]
  have hhgt : measureFootHeight [⟨0, 0, 0⟩]
      (some ⟨⟨0, 0, 0⟩, ⟨0, 0, 0⟩⟩) = 0 := by
    norm_num [measureFootHeight, instepVertices, instepStartZ, instepEndZ,
      qmin, qmax, List.filter]
  have hov : orientedVertices [(⟨0, 0, 0⟩ : Vertex)] none = [⟨0, 0, 0⟩] :=
    rfl
  have hmd : engineMaxDim [(⟨0, 0, 0⟩ : Vertex)] = 0 := by
    simp only [engineMaxDim, hbox, hsize]
    norm_num
  have heL : engineFootLength [(⟨0, 0, 0⟩ : Vertex)] = 0 := by
    simp only [engineFootLength, hbox, hlen, hmd]
    norm_num
  have heW : engineFootWidth [(⟨0, 0, 0⟩ : Vertex)] = 0 := by
    simp only [engineFootWidth, hbox, hwid, hmd]
    norm_num
  have heH : engineFootHeight [(⟨0, 0, 0⟩ : Vertex)] = 0 := by
    simp only [engineFootHeight, hbox, hhgt, hmd]
    norm_num
  have hval : validateMeasurements (0 : ℚ) 0 0 = false := by
    norm_num [validateMeasurements]
  have hfbl : (performFallbackMeasurement [⟨0, 0, 0⟩]).measurements.length =
      50 := by
    simp only [performFallbackMeasurement, hbox, hsize]
    norm_num
  have hmain : performPreciseMeasurements ⟨some demoRecord⟩
      ⟨some [⟨0, 0, 0⟩]⟩ none =
      (⟨some demoRecord⟩,
       [.measurementStarted "발 구조 분석 중...",
        .measurementProgress "정밀 측정 수행 중...",
        .measurementComplete "기본 측정 완료 (폴백 모드)"],
       some (performFallbackMeasurement [⟨0, 0, 0⟩]).measurements) := by
    simp only [performPreciseMeasurements, List.isEmpty_cons,
      Bool.false_eq_true, if_false, hov, heL, heW, heH]
    rw [hval]
    simp only [Bool.false_eq_true, if_false]
  refine ⟨?_, ?_, ?_⟩
  · rw [hmain]
    simp
  · rw [hmain]
  · rw [hmain]
    simp only [ne_eq, Option.some.injEq]
    intro h
    have h2 := congrArg MeasurementRecord.length h
    rw [hfbl] at h2
    norm_num [demoRecord] at h2

/-- C10 (amended): every `performPreciseMeasurements` call is fully
characterised per path.  A missing position buffer leaves the state
unchanged and returns no record.  A call whose measurements VALIDATE
replaces the stored `footMeasurements` wholesale with exactly the record
the call returns (`validatedRecord`, built fresh from this call's
vertices).  A call that takes the fallback path (empty buffer or failed
validation) returns the fallback record but leaves `footMeasurements`
completely unchanged — the stored record remains the previous call's
result.  In no path is the stored record mutated field-by-field. -/
theorem performPreciseMeasurements_storage_spec (st : EngineState)
    (g : Geometry) (rotation : Option (Vertex → Vertex)) :
    (g.position = none →
      performPreciseMeasurements st g rotation =
        (st, [.measurementStarted "오류: 유효하지 않은 3D 데이터"], none)) ∧
    (∀ positions : List Vertex, g.position = some positions →
      (positions.isEmpty = true →
        performPreciseMeasurements st g rotation =
          (st,
           [.measurementStarted "발 구조 분석 중...",
            .measurementComplete "기본 측정 완료 (폴백 모드)"],
           some (performFallbackMeasurement positions).measurements)) ∧
      (positions.isEmpty = false →
        (validateMeasurements
            (engineFootLength (orientedVertices positions rotation))
            (engineFootWidth (orientedVertices positions rotation))
            (engineFootHeight (orientedVertices positions rotation)) =
              true →
          performPreciseMeasurements st g rotation =
            (⟨some (validatedRecord positions rotation)⟩,
             [.measurementStarted "발 구조 분석 중...",
              .measurementProgress "정밀 측정 수행 중...",
              .measurementComplete "측정 완료 - 정밀도 검증됨"],
             some (validatedRecord positions rotation))) ∧
        (validateMeasurements
            (engineFootLength (orientedVertices positions rotation))
            (engineFootWidth (orientedVertices positions rotation))
            (engineFootHeight (orientedVertices positions rotation)) =
              false →
          performPreciseMeasurements st g rotation =
            (st,
             [.measurementStarted "발 구조 분석 중...",
              .measurementProgress "정밀 측정 수행 중...",
              .measurementComplete "기본 측정 완료 (폴백 모드)"],
             some (performFallbackMeasurement positions).measurements)))) := by
  obtain ⟨pos⟩ := g
  constructor
  · intro h
    cases pos with
    | none => rfl
    | some ps => exact Option.noConfusion h
  · intro positions hpos
    have hpos2 : pos = some positions := hpos
    subst hpos2
    constructor
    · intro he
      simp [performPreciseMeasurements, he]
    · intro he
      constructor
      · intro hv
        simp [performPreciseMeasurements, he, hv]
      · intro hv
        simp [performPreciseMeasurements, he, hv]

/-- A concrete millimeter-scale point cloud whose measurements pass
validation: bounding box 100 × 60 × 250, sole length 250, ball width 100,
instep height 60. -/
def demoPositions : List Vertex :=
  [⟨0, 0, 0⟩, ⟨0, 0, 250⟩, ⟨60, 0, 160⟩, ⟨0, 60, 100⟩, ⟨-40, 0, 170⟩]

/-- Witness for `performPreciseMeasurements_storage_spec` on the validated
path: measuring `demoPositions` from a fresh engine stores and returns the
same freshly built record, with dimensions 250 × 100 × 60. -/
theorem performPreciseMeasurements_storage_spec_witness :
    (performPreciseMeasurements ⟨none⟩ ⟨some demoPositions⟩
        none).1.footMeasurements =
      some (validatedRecord demoPositions none) ∧
    (performPreciseMeasurements ⟨none⟩ ⟨some demoPositions⟩ none).2.2 =
      some (validatedRecord demoPositions none) ∧
    (validatedRecord demoPositions none).length = 250 ∧
    (validatedRecord demoPositions none).width = 100 ∧
    (validatedRecord demoPositions none).height = 60 := by
  have hov : orientedVertices demoPositions none = demoPositions := rfl
  have hbox : setFromPoints demoPositions =
      some ⟨⟨-40, 0, 0⟩, ⟨60, 60, 250⟩⟩ := by
    norm_num [demoPositions, setFromPoints, expandByPoint]
  have hsize : sizeOfBox (some (⟨⟨-40, 0, 0⟩, ⟨60, 60, 250⟩⟩ : Box3)) =
      ⟨100, 60, 250⟩ := by
    norm_num [sizeOfBox, Box3.getSize, Box3.isEmpty]
  have hmd : engineMaxDim demoPositions = 250 := by
    simp only [engineMaxDim, hbox, hsize]
    norm_num
  have hunit : detectUnit 250 = ⟨1, "mm", "높음 (mm 단위 감지)"⟩ := by
    norm_num [detectUnit]
  have hlen : measureFootLength demoPositions
      (some ⟨⟨-40, 0, 0⟩, ⟨60, 60, 250⟩⟩) = 250 := by
    norm_num [measureFootLength, footSoleVertices15, footSoleThreshold15,
      qmin, qmax, demoPositions, List.filter]
  have hwid : measureFootWidth demoPositions
      (some ⟨⟨-40, 0, 0⟩, ⟨60, 60, 250⟩⟩) = 100 := by
    norm_num [measureFootWidth, ballVertices, ballStartZ, ballEndZ,
      footSoleThreshold20, qmin, qmax, demoPositions, List.filter]
  have hhgt : measureFootHeight demoPositions
      (some ⟨⟨-40, 0, 0⟩, ⟨60, 60, 250⟩⟩) = 60 := by
    norm_num [measureFootHeight, instepVertices, instepStartZ, instepEndZ,
      qmin, qmax, demoPositions, List.filter]
  have heL : engineFootLength demoPositions = 250 := by
    simp only [engineFootLength, hbox, hmd, hunit, hlen]
    norm_num
  have heW : engineFootWidth demoPositions = 100 := by
    simp only [engineFootWidth, hbox, hmd, hunit, hwid]
    norm_num
  have heH : engineFootHeight demoPositions = 60 := by
    simp only [engineFootHeight, hbox, hmd, hunit, hhgt]
    norm_num
  have hv : validateMeasurements
      (engineFootLength (orientedVertices demoPositions none))
      (engineFootWidth (orientedVertices demoPositions none))
      (engineFootHeight (orientedVertices demoPositions none)) = true := by
    rw [hov, heL, heW, heH]
    norm_num [validateMeasurements]
  have hmain := (((performPreciseMeasurements_storage_spec ⟨none⟩
      ⟨some demoPositions⟩ none).2 demoPositions rfl).2 rfl).1 hv
  refine ⟨?_, ?_, ?_, ?_, ?_⟩
  · rw [hmain]
  · rw [hmain]
  · simp only [validatedRecord, hov, heL]
  · simp only [validatedRecord, hov, heW]
  · simp only [validatedRecord, hov, heH]
